import Mathlib

/-!
# Verification of the Indra EV-charger polling integration

Shallow embedding of `custom_components/indra` (api.py, coordinator.py)
and proofs about the session-energy reconciliation state machine, the
API client's HTTP-status handling, the persisted-state loader and the
full refresh cycle of `IndraDataUpdateCoordinator._async_update_data`.

Conventions:
* Python `float` energy readings are modelled as `ℚ` (the reconciliation
  logic only stores and compares them, it never does float arithmetic).
* Python `None` is `Option.none`; a fallible call returns `Except`.
* Dictionaries held by the coordinator are modelled as functions
  `Option String → Option _` (a device UID read with `.get` can itself
  be `None` when the vendor JSON lacks `deviceUID`).
-/

namespace Indra

/-! ## Per-device reconciliation state machine (coordinator.py lines 124-161)

The coordinator tracks, per device UID: the session-energy baseline
(`self._session_baselines`), the last observed cable state
(`self._prev_cable_states`) and the consecutive-`notCharging` poll counter
(`self._unplug_count`).  For one fixed device these three scalars evolve
deterministically from the polled observation. -/

/-- The slice of coordinator state belonging to one device UID:
`baseline` is `self._session_baselines.get(uid)`, `prevCable` is
`self._prev_cable_states.get(uid)` and `count` is
`self._unplug_count.get(uid, 0)`. -/
structure DevState where
  baseline : Option ℚ
  prevCable : Option String
  count : ℕ
deriving DecidableEq, Repr

/-- Coordinator state before the first poll ever touches the device
(`__init__` creates the three dicts empty). -/
def initDevState : DevState := ⟨none, none, 0⟩

/-- One polled observation for a device: `cable` is
`props.get("cableState", {}).get("settingValue", "")` (so `""` when the
property is missing) and `energy` is
`device_telemetry.get("data", {}).get("activeEnergyToEv")`. -/
structure Obs where
  cable : String
  energy : Option ℚ
deriving DecidableEq, Repr

/-- `is_plugged_in = cable_state in ("charging", "connected")`
(coordinator.py line 136). -/
def isPluggedIn (cable : String) : Bool :=
  cable == "charging" || cable == "connected"

/-- Embeds coordinator.py lines 136-161 for one device and one poll.
Returns the successor state together with the contribution of this
device to the cycle-wide `baselines_changed` flag.

* `cable_state == "notCharging"`: increment the counter; if it reaches 2
  and a baseline is recorded, delete the baseline and flag the change.
  Any other cable state resets the counter to 0.
* If `is_plugged_in` and no baseline is recorded (after the possible
  deletion) and the energy reading is not `None`, record it as the
  baseline and flag the change.
* If the cable state differs from the previously stored one, store it
  and flag the change.  (The stored value afterwards is always
  `some cable`.) -/
def deviceStep (st : DevState) (cable : String) (energy : Option ℚ) :
    DevState × Bool :=
  let count1 : ℕ := if cable == "notCharging" then st.count + 1 else 0
  let clear : Bool := cable == "notCharging" && decide (2 ≤ st.count + 1)
      && st.baseline.isSome
  let baseline1 : Option ℚ := if clear then none else st.baseline
  let setB : Bool := isPluggedIn cable && baseline1.isNone && energy.isSome
  let baseline2 : Option ℚ := if setB then energy else baseline1
  let cableCh : Bool := !(st.prevCable == some cable)
  let prev2 : Option String := some cable
  (⟨baseline2, prev2, count1⟩, clear || setB || cableCh)

/-- Fold of `deviceStep` over a poll sequence starting from the pristine
state: the device's coordinator state after a run of polls. -/
def runDev (l : List Obs) : DevState :=
  l.foldl (fun st o => (deviceStep st o.cable o.energy).1) initDevState

@[simp] theorem runDev_nil : runDev [] = initDevState := rfl

theorem runDev_append_singleton (l : List Obs) (x : Obs) :
    runDev (l ++ [x]) = (deviceStep (runDev l) x.cable x.energy).1 := by
  simp [runDev, List.foldl_append]

/-- The counter after a step: incremented on `"notCharging"`, reset to 0
otherwise. -/
theorem deviceStep_count (st : DevState) (cable : String) (energy : Option ℚ) :
    (deviceStep st cable energy).1.count =
      if cable = "notCharging" then st.count + 1 else 0 := by
  simp only [deviceStep]
  by_cases h : cable = "notCharging" <;> simp [h]

/-- A cable state in `("charging", "connected")` is never the string
`"notCharging"`. -/
theorem isPluggedIn_ne_notCharging {cable : String}
    (h : isPluggedIn cable = true) : cable ≠ "notCharging" := by
  rcases (by simpa [isPluggedIn] using h : cable = "charging" ∨ cable = "connected")
    with rfl | rfl <;> decide

/-- Baseline after a `"notCharging"` poll: deleted exactly when the
incremented counter reaches 2 (i.e. the stored counter was already
positive) and a baseline is recorded; never newly recorded. -/
theorem deviceStep_baseline_notCharging (st : DevState) (e : Option ℚ) :
    (deviceStep st "notCharging" e).1.baseline =
      if 1 ≤ st.count ∧ st.baseline.isSome = true then none else st.baseline := by
  simp only [deviceStep, isPluggedIn]
  by_cases h1 : 1 ≤ st.count <;> cases hb : st.baseline <;> simp [h1, hb]

/-- Baseline after a plugged-in poll: recorded from the energy reading
when absent and the reading is valid, otherwise kept. -/
theorem deviceStep_baseline_plugged (st : DevState) (cable : String)
    (e : Option ℚ) (h : isPluggedIn cable = true) :
    (deviceStep st cable e).1.baseline =
      if st.baseline = none ∧ e.isSome = true then e else st.baseline := by
  have hne : (cable == "notCharging") = false := by
    simpa using isPluggedIn_ne_notCharging h
  simp only [deviceStep, hne, h]
  cases hb : st.baseline <;> cases he : e <;> simp [hb, he]

/-- Baseline after any other poll (neither plugged in nor
`"notCharging"`, e.g. an empty or `"faulted"` reading): untouched. -/
theorem deviceStep_baseline_other (st : DevState) (cable : String)
    (e : Option ℚ) (h1 : cable ≠ "notCharging") (h2 : isPluggedIn cable = false) :
    (deviceStep st cable e).1.baseline = st.baseline := by
  have hne : (cable == "notCharging") = false := by simpa using h1
  simp [deviceStep, hne, h2]

/-- C9: after the coordinator processes a device in a poll cycle, the
consecutive-`notCharging` counter is zero exactly when the observed cable
state was anything other than `"notCharging"` (including the empty string
used for a missing reading), and strictly positive exactly when it was
`"notCharging"`; hence a positive counter always means the most recent
observation was `"notCharging"`. -/
theorem counter_zero_iff_not_notCharging (st : DevState) (cable : String)
    (energy : Option ℚ) :
    ((deviceStep st cable energy).1.count = 0 ↔ cable ≠ "notCharging") ∧
    (0 < (deviceStep st cable energy).1.count ↔ cable = "notCharging") := by
  rw [deviceStep_count]
  by_cases h : cable = "notCharging" <;> simp [h]

/-- C10: within a single per-device reconciliation step, clearing and
recording a baseline are mutually exclusive.  A `"notCharging"` poll
never records a baseline; a recorded baseline is never replaced by a
different value in one step; and every step either keeps the baseline,
deletes it (only on `"notCharging"`), or sets it from the energy reading
(only when absent and plugged in). -/
theorem clear_set_exclusive (st : DevState) (cable : String)
    (energy : Option ℚ) :
    (cable = "notCharging" →
      (deviceStep st cable energy).1.baseline = st.baseline ∨
      (deviceStep st cable energy).1.baseline = none) ∧
    (∀ b : ℚ, st.baseline = some b →
      (deviceStep st cable energy).1.baseline = some b ∨
      (deviceStep st cable energy).1.baseline = none) ∧
    ((deviceStep st cable energy).1.baseline = st.baseline ∨
      (st.baseline.isSome = true ∧ (deviceStep st cable energy).1.baseline = none ∧
        cable = "notCharging") ∨
      (st.baseline = none ∧ (deviceStep st cable energy).1.baseline = energy ∧
        energy.isSome = true ∧ isPluggedIn cable = true)) := by
  by_cases hc : cable = "notCharging"
  · subst hc
    rw [deviceStep_baseline_notCharging]
    by_cases h1 : 1 ≤ st.count ∧ st.baseline.isSome = true
    · refine ⟨fun _ => Or.inr (by simp [h1]), fun b hb => Or.inr (by simp [h1]), ?_⟩
      exact Or.inr (Or.inl ⟨h1.2, by simp [h1], rfl⟩)
    · refine ⟨fun _ => Or.inl (by simp [h1]), fun b hb => Or.inl ?_, Or.inl (by simp [h1])⟩
      have hcount : ¬1 ≤ st.count := fun hc => h1 ⟨hc, by simp [hb]⟩
      simp [hcount, hb]
  · by_cases hp : isPluggedIn cable = true
    · rw [deviceStep_baseline_plugged st cable energy hp]
      by_cases hset : st.baseline = none ∧ energy.isSome = true
      · exact ⟨fun h => absurd h hc, fun b hb => by simp [hset.1] at hb,
          Or.inr (Or.inr ⟨hset.1, by simp [hset], hset.2, hp⟩)⟩
      · exact ⟨fun h => absurd h hc, fun b hb => Or.inl (by simp [hset, hb]),
          Or.inl (by simp [hset])⟩
    · rw [deviceStep_baseline_other st cable energy hc (by simpa using hp)]
      exact ⟨fun h => Or.inl rfl, fun b hb => Or.inl hb, Or.inl rfl⟩

/-- Witness for `clear_set_exclusive`: with a recorded baseline of 5, a
counter of 1 and a second consecutive `"notCharging"` poll, the step
resolves to deletion (never to a new value). -/
theorem clear_set_exclusive_witness :
    ((deviceStep ⟨some 5, some "charging", 1⟩ "notCharging" (some 7)).1.baseline =
        (⟨some 5, some "charging", 1⟩ : DevState).baseline ∨
      (deviceStep ⟨some 5, some "charging", 1⟩ "notCharging" (some 7)).1.baseline = none) ∧
    ((deviceStep ⟨some 5, some "charging", 1⟩ "notCharging" (some 7)).1.baseline = some 5 ∨
      (deviceStep ⟨some 5, some "charging", 1⟩ "notCharging" (some 7)).1.baseline = none) :=
  ⟨(clear_set_exclusive ⟨some 5, some "charging", 1⟩ "notCharging" (some 7)).1 rfl,
   (clear_set_exclusive ⟨some 5, some "charging", 1⟩ "notCharging" (some 7)).2.1 5 rfl⟩

/-- C3: for every device state and pair of consecutive polls, the
baseline is cleared at the second poll exactly when both polls report
`"notCharging"` while a baseline is recorded; and from a recorded
baseline with a zero debounce counter, a single `"notCharging"` poll
followed by any other cable state leaves the baseline untouched and
resets the counter to 0. -/
theorem baseline_cleared_iff_two_notCharging :
    (∀ (s0 : DevState) (a b : Obs),
      ((deviceStep s0 a.cable a.energy).1.baseline.isSome = true ∧
        (deviceStep (deviceStep s0 a.cable a.energy).1 b.cable b.energy).1.baseline
          = none) ↔
      (a.cable = "notCharging" ∧ b.cable = "notCharging" ∧
        (deviceStep s0 a.cable a.energy).1.baseline.isSome = true)) ∧
    (∀ (st : DevState) (bb : ℚ) (e1 e2 : Option ℚ) (c2 : String),
      st.baseline = some bb → st.count = 0 → c2 ≠ "notCharging" →
      (deviceStep st "notCharging" e1).1.baseline = some bb ∧
      (deviceStep (deviceStep st "notCharging" e1).1 c2 e2).1.baseline = some bb ∧
      (deviceStep (deviceStep st "notCharging" e1).1 c2 e2).1.count = 0) := by
  constructor
  · intro s0 a b
    set s1 := (deviceStep s0 a.cable a.energy).1 with hs1
    constructor
    · rintro ⟨hsome, hnone⟩
      refine ⟨?_, ?_, hsome⟩
      · -- the second step can only remove the baseline on "notCharging"
        -- with a positive counter, which forces the first poll to be
        -- "notCharging" as well
        by_cases hb : b.cable = "notCharging"
        · by_contra ha
          have hcnt : s1.count = 0 := by
            rw [hs1, deviceStep_count]; simp [ha]
          rw [hb, deviceStep_baseline_notCharging] at hnone
          rw [hcnt] at hnone
          simp at hnone
          rw [hnone] at hsome
          simp at hsome
        · exfalso
          by_cases hp : isPluggedIn b.cable = true
          · rw [deviceStep_baseline_plugged _ _ _ hp] at hnone
            by_cases hset : s1.baseline = none ∧ b.energy.isSome = true
            · rw [if_pos hset] at hnone
              rw [hnone] at hset
              simp at hset
            · rw [if_neg hset] at hnone
              rw [hnone] at hsome
              simp at hsome
          · rw [deviceStep_baseline_other _ _ _ hb (by simpa using hp)] at hnone
            rw [hnone] at hsome
            simp at hsome
      · by_contra hb
        by_cases hp : isPluggedIn b.cable = true
        · rw [deviceStep_baseline_plugged _ _ _ hp] at hnone
          by_cases hset : s1.baseline = none ∧ b.energy.isSome = true
          · rw [if_pos hset] at hnone
            rw [hnone] at hset
            simp at hset
          · rw [if_neg hset] at hnone
            rw [hnone] at hsome
            simp at hsome
        · rw [deviceStep_baseline_other _ _ _ hb (by simpa using hp)] at hnone
          rw [hnone] at hsome
          simp at hsome
    · rintro ⟨ha, hb, hsome⟩
      refine ⟨hsome, ?_⟩
      have hcnt : 1 ≤ s1.count := by
        rw [hs1, deviceStep_count]; simp [ha]
      rw [hb, deviceStep_baseline_notCharging]
      simp [hcnt, hsome]
  · intro st bb e1 e2 c2 hbase hcnt hc2
    have h1 : (deviceStep st "notCharging" e1).1.baseline = some bb := by
      rw [deviceStep_baseline_notCharging]
      simp [hcnt, hbase]
    refine ⟨h1, ?_, ?_⟩
    · by_cases hp : isPluggedIn c2 = true
      · rw [deviceStep_baseline_plugged _ _ _ hp, h1]
        simp
      · rw [deviceStep_baseline_other _ _ _ hc2 (by simpa using hp), h1]
    · rw [deviceStep_count]
      simp [hc2]

/-- Witness for `baseline_cleared_iff_two_notCharging`: a device with
baseline 5 and counter 0 sees `"notCharging"` once and then
`"connected"`; the baseline survives both polls and the counter is back
to 0 (Scenario C of the specification). -/
theorem baseline_cleared_iff_two_notCharging_witness :
    (deviceStep ⟨some 5, some "charging", 0⟩ "notCharging" none).1.baseline = some 5 ∧
    (deviceStep (deviceStep ⟨some 5, some "charging", 0⟩ "notCharging" none).1
      "connected" none).1.baseline = some 5 ∧
    (deviceStep (deviceStep ⟨some 5, some "charging", 0⟩ "notCharging" none).1
      "connected" none).1.count = 0 :=
  baseline_cleared_iff_two_notCharging.2 ⟨some 5, some "charging", 0⟩ 5 none none
    "connected" rfl rfl (by decide)

/-- C4 fails as stated: a device that was already plugged in on the
previous poll (stored cable state `"charging"`) but obtained no energy
reading there has no baseline, and the next `"charging"` poll with
energy 5000 records the baseline even though the device *was* previously
plugged in. -/
theorem c4_counterexample :
    (runDev [⟨"charging", none⟩]).prevCable = some "charging" ∧
    (runDev [⟨"charging", none⟩]).baseline = none ∧
    (runDev [⟨"charging", none⟩, ⟨"charging", some 5000⟩]).baseline = some 5000 := by
  refine ⟨rfl, rfl, ?_⟩
  show (deviceStep (deviceStep initDevState "charging" none).1 "charging"
    (some 5000)).1.baseline = some 5000
  rw [deviceStep_baseline_plugged _ _ _ (by decide),
    deviceStep_baseline_plugged _ _ _ (by decide)]
  simp [initDevState]

/-- C4 amended: during one reconciliation step a baseline is recorded if
and only if no baseline is currently recorded and the device is observed
plugged in with a valid (non-`None`) energy reading — regardless of the
previously stored cable state; the recorded value is the energy reading
itself (Scenario A). -/
theorem baseline_set_iff_absent_plugged (st : DevState) (o : Obs) :
    ((st.baseline = none ∧
        (deviceStep st o.cable o.energy).1.baseline.isSome = true) ↔
      (st.baseline = none ∧ isPluggedIn o.cable = true ∧
        o.energy.isSome = true)) ∧
    (∀ e : ℚ, st.baseline = none → isPluggedIn o.cable = true →
      o.energy = some e →
      (deviceStep st o.cable o.energy).1.baseline = some e) := by
  constructor
  · constructor
    · rintro ⟨hnone, hsome⟩
      refine ⟨hnone, ?_, ?_⟩
      · by_contra hp
        by_cases hc : o.cable = "notCharging"
        · rw [hc, deviceStep_baseline_notCharging] at hsome
          simp [hnone] at hsome
        · rw [deviceStep_baseline_other _ _ _ hc (by simpa using hp), hnone] at hsome
          simp at hsome
      · by_contra he
        by_cases hp : isPluggedIn o.cable = true
        · rw [deviceStep_baseline_plugged _ _ _ hp] at hsome
          simp [hnone, he] at hsome
        · by_cases hc : o.cable = "notCharging"
          · rw [hc, deviceStep_baseline_notCharging] at hsome
            simp [hnone] at hsome
          · rw [deviceStep_baseline_other _ _ _ hc (by simpa using hp), hnone] at hsome
            simp at hsome
    · rintro ⟨hnone, hp, he⟩
      refine ⟨hnone, ?_⟩
      rw [deviceStep_baseline_plugged _ _ _ hp]
      simp [hnone, he]
  · intro e hnone hp he
    rw [deviceStep_baseline_plugged _ _ _ hp]
    simp [hnone, he]

/-- Witness for `baseline_set_iff_absent_plugged` (Scenario A): from the
pristine state, a `"charging"` poll with `activeEnergyToEv = 5000`
records baseline 5000. -/
theorem baseline_set_iff_absent_plugged_witness :
    (deviceStep initDevState "charging" (some 5000)).1.baseline = some 5000 :=
  (baseline_set_iff_absent_plugged initDevState ⟨"charging", some 5000⟩).2 5000
    rfl rfl rfl

/-- C2 fails as stated: a device whose only poll reports `"charging"`
with a `None` energy reading is currently considered plugged in and has
never unplugged, yet no baseline is recorded; conversely a device that
recorded baseline 5 while charging and then reports `"faulted"` is not
considered plugged in, yet the baseline is still recorded. -/
theorem c2_counterexample :
    ((runDev [⟨"charging", none⟩]).prevCable = some "charging" ∧
      (runDev [⟨"charging", none⟩]).baseline = none) ∧
    ((runDev [⟨"charging", some 5⟩, ⟨"faulted", none⟩]).prevCable = some "faulted" ∧
      (runDev [⟨"charging", some 5⟩, ⟨"faulted", none⟩]).baseline = some 5) := by
  refine ⟨⟨rfl, rfl⟩, rfl, ?_⟩
  show (deviceStep (deviceStep initDevState "charging" (some 5)).1 "faulted"
    none).1.baseline = some 5
  rw [deviceStep_baseline_other _ _ _ (by decide) (by decide),
    deviceStep_baseline_plugged _ _ _ (by decide)]
  simp [initDevState]

/-! ## Run-level characterisation of the recorded baseline

Used to state the corrected form of the spec's existence invariant: a
baseline is recorded after a run of polls iff some poll observed the
device plugged in with a valid energy reading and no two adjacent polls
since then both reported `"notCharging"`. -/

/-- An observation that can start a session baseline: plugged in
(`"charging"`/`"connected"`) with a non-`None` energy reading. -/
def pluggedWithEnergy (o : Obs) : Prop :=
  isPluggedIn o.cable = true ∧ o.energy.isSome = true

/-- No two adjacent observations in the list both report
`"notCharging"` (so the two-poll debounce never confirms an unplug
inside the list). -/
def noConsecNotCharging (l : List Obs) : Prop :=
  List.Chain' (fun a b => ¬(a.cable = "notCharging" ∧ b.cable = "notCharging")) l

/-- The run's most recent observation reported `"notCharging"`. -/
def endsNotCharging (l : List Obs) : Prop :=
  ∃ o ∈ l.getLast?, o.cable = "notCharging"

theorem append_singleton_inj {α : Type _} {a b : List α} {x y : α}
    (h : a ++ [x] = b ++ [y]) : a = b ∧ x = y := by
  have h' := congrArg List.reverse h
  simp at h'
  exact ⟨h'.2, h'.1⟩

theorem getLast?_append_cons {α : Type _} (l₁ : List α) (o : α) (l₂ : List α) :
    (l₁ ++ o :: l₂).getLast? = (o :: l₂).getLast? := by
  rw [List.getLast?_append]
  cases h : (o :: l₂).getLast? with
  | none => simp at h
  | some a => rfl

/-- The debounce counter is positive after a run exactly when the most
recent poll reported `"notCharging"`. -/
theorem count_pos_iff_endsNotCharging (l : List Obs) :
    (0 < (runDev l).count ↔ endsNotCharging l) := by
  induction l using List.reverseRecOn with
  | nil => simp [runDev, initDevState, endsNotCharging]
  | append_singleton l x ih =>
    rw [runDev_append_singleton, deviceStep_count]
    by_cases hx : x.cable = "notCharging" <;>
      simp [hx, endsNotCharging, List.getLast?_concat]

/-- Appending one observation to a debounce-free list stays
debounce-free iff the junction does not create an adjacent
`"notCharging"` pair. -/
theorem noConsec_append_singleton (l₂ : List Obs) (x : Obs) :
    noConsecNotCharging (l₂ ++ [x]) ↔
      noConsecNotCharging l₂ ∧
        ∀ a ∈ l₂.getLast?, ¬(a.cable = "notCharging" ∧ x.cable = "notCharging") := by
  rw [noConsecNotCharging, List.chain'_append]
  simp [noConsecNotCharging]

/-- In a decomposition after a plugged-in observation, the whole run
ends on `"notCharging"` iff the tail after that observation does. -/
theorem endsNotCharging_decomp (l₁ : List Obs) (o : Obs) (l₂ : List Obs)
    (hpe : pluggedWithEnergy o) :
    endsNotCharging (l₁ ++ o :: l₂) ↔
      ∃ a ∈ l₂.getLast?, a.cable = "notCharging" := by
  rw [endsNotCharging, getLast?_append_cons]
  rcases l₂.eq_nil_or_concat with rfl | ⟨l₂', a, rfl⟩
  · simp only [List.getLast?_singleton, List.getLast?_nil]
    constructor
    · rintro ⟨o', ho', hnc⟩
      simp at ho'
      subst ho'
      exact absurd hnc (isPluggedIn_ne_notCharging hpe.1)
    · rintro ⟨a, ha, _⟩
      simp at ha
  · rw [List.concat_eq_append, ← List.cons_append, List.getLast?_concat,
      List.getLast?_concat]

/-- Shifting a decomposition across an appended non-recording
observation: the appended poll can never itself be the baseline-starting
observation, so decompositions of `l ++ [x]` correspond to
decompositions of `l` with `x` joined to the tail. -/
theorem decomp_append_singleton {x : Obs} (hx : ¬pluggedWithEnergy x)
    (l : List Obs) :
    (∃ l₁ o l₂, l ++ [x] = l₁ ++ o :: l₂ ∧ pluggedWithEnergy o ∧
        noConsecNotCharging l₂) ↔
      (∃ l₁ o l₂, l = l₁ ++ o :: l₂ ∧ pluggedWithEnergy o ∧
        noConsecNotCharging (l₂ ++ [x])) := by
  constructor
  · rintro ⟨l₁, o, l₂, heq, hpe, hch⟩
    rcases l₂.eq_nil_or_concat with rfl | ⟨l₂', x', rfl⟩
    · obtain ⟨-, hxo⟩ := append_singleton_inj (by simpa using heq)
      exact absurd (hxo ▸ hpe) hx
    · rw [List.concat_eq_append] at heq hch
      obtain ⟨hl, hxx⟩ := append_singleton_inj
        (by simpa using heq : l ++ [x] = (l₁ ++ o :: l₂') ++ [x'])
      subst hxx
      exact ⟨l₁, o, l₂', hl, hpe, hch⟩
  · rintro ⟨l₁, o, l₂, rfl, hpe, hch⟩
    exact ⟨l₁, o, l₂ ++ [x], by simp, hpe, hch⟩

/-- C2 amended: after any run of polls, a session-energy baseline is
recorded iff some poll observed the device plugged in (cable state
`"charging"` or `"connected"`) with a valid energy reading and no two
adjacent polls after it both reported `"notCharging"` (i.e. no
confirmed unplug has happened since). -/
theorem baseline_iff_plugin_since_unplug (l : List Obs) :
    (runDev l).baseline.isSome = true ↔
      ∃ l₁ o l₂, l = l₁ ++ o :: l₂ ∧ pluggedWithEnergy o ∧
        noConsecNotCharging l₂ := by
  induction l using List.reverseRecOn with
  | nil =>
    constructor
    · intro h
      simp [runDev, initDevState] at h
    · rintro ⟨l₁, o, l₂, h, -, -⟩
      exact absurd h (by simp)
  | append_singleton l x ih =>
    rw [runDev_append_singleton]
    by_cases hpe : pluggedWithEnergy x
    · refine iff_of_true ?_ ⟨l, x, [], by simp, hpe, List.chain'_nil⟩
      rw [deviceStep_baseline_plugged _ _ _ hpe.1]
      cases hb : (runDev l).baseline with
      | none => simp [hb, hpe.2]
      | some b => simp [hb]
    · rw [decomp_append_singleton hpe l]
      by_cases hx : x.cable = "notCharging"
      · -- an appended "notCharging" poll: the baseline survives iff it
        -- existed and the previous poll was not "notCharging"
        rw [hx, deviceStep_baseline_notCharging]
        by_cases h1 : 1 ≤ (runDev l).count ∧ (runDev l).baseline.isSome = true
        · rw [if_pos h1]
          simp only [Option.isSome_none, Bool.false_eq_true, false_iff]
          rintro ⟨l₁, o, l₂, rfl, hpeo, hch⟩
          rw [noConsec_append_singleton] at hch
          have hends : endsNotCharging (l₁ ++ o :: l₂) :=
            (count_pos_iff_endsNotCharging _).1 (by omega)
          rw [endsNotCharging_decomp _ _ _ hpeo] at hends
          obtain ⟨a, ha, hanc⟩ := hends
          exact hch.2 a ha ⟨hanc, hx⟩
        · rw [if_neg h1]
          by_cases hb : (runDev l).baseline.isSome = true
          · -- baseline present and counter 0: survives, and the tail can
            -- absorb the new "notCharging" without an adjacent pair
            have hcnt : ¬ 0 < (runDev l).count := by
              rcases Nat.eq_zero_or_pos (runDev l).count with h0 | hpos
              · omega
              · exact absurd ⟨hpos, hb⟩ h1
            have hnoend : ¬ endsNotCharging l := fun h =>
              hcnt ((count_pos_iff_endsNotCharging l).2 h)
            rw [hb] at ih ⊢
            simp only [true_iff] at ih
            obtain ⟨l₁, o, l₂, rfl, hpeo, hch⟩ := ih
            refine iff_of_true rfl ⟨l₁, o, l₂, rfl, hpeo, ?_⟩
            rw [noConsec_append_singleton]
            refine ⟨hch, fun a ha hpair => ?_⟩
            exact hnoend ((endsNotCharging_decomp _ _ _ hpeo).2 ⟨a, ha, hpair.1⟩)
          · -- no baseline before: none after either, and no valid
            -- decomposition exists
            have hb' : (runDev l).baseline.isSome = false := by
              simpa using hb
            refine iff_of_false (by simp [hb']) ?_
            rintro ⟨l₁, o, l₂, rfl, hpeo, hch⟩
            rw [noConsec_append_singleton] at hch
            exact hb (ih.2 ⟨l₁, o, l₂, rfl, hpeo, hch.1⟩)
      · -- an appended poll that is neither "notCharging" nor
        -- baseline-recording: baseline and decompositions both carry over
        have hstep : (deviceStep (runDev l) x.cable x.energy).1.baseline =
            (runDev l).baseline := by
          by_cases hp : isPluggedIn x.cable = true
          · rw [deviceStep_baseline_plugged _ _ _ hp]
            have he : x.energy.isSome ≠ true := fun h => hpe ⟨hp, h⟩
            simp [he]
          · exact deviceStep_baseline_other _ _ _ hx (by simpa using hp)
        rw [hstep, ih]
        constructor
        · rintro ⟨l₁, o, l₂, rfl, hpeo, hch⟩
          refine ⟨l₁, o, l₂, rfl, hpeo, ?_⟩
          rw [noConsec_append_singleton]
          exact ⟨hch, fun a ha hpair => hx hpair.2⟩
        · rintro ⟨l₁, o, l₂, rfl, hpeo, hch⟩
          rw [noConsec_append_singleton] at hch
          exact ⟨l₁, o, l₂, rfl, hpeo, hch.1⟩

/-! ## Cycle-level reconciliation over the coordinator's dictionaries
(coordinator.py lines 82, 124-176)

The coordinator keys its three dictionaries by `device.get("deviceUID")`
(an `Option String`, since the key may be missing from the vendor JSON)
and runs the per-device step for every fetched device, OR-ing the
per-device `baselines_changed` contributions into one cycle-wide flag;
`_save_baselines` is called at the end of the cycle iff that flag is
set. -/

/-- The coordinator's mutable dictionaries, as partial maps:
`self._session_baselines`, `self._prev_cable_states` and
`self._unplug_count`. -/
structure GState where
  baselines : Option String → Option ℚ
  prevCables : Option String → Option String
  counts : Option String → Option ℕ

/-- The dictionaries created empty in `__init__`. -/
def emptyG : GState := ⟨fun _ => none, fun _ => none, fun _ => none⟩

/-- Pointwise dictionary write `m[k] = v` (with `v = none` for `del`). -/
def updMap {α : Type _} (m : Option String → Option α) (k : Option String)
    (v : Option α) : Option String → Option α :=
  fun q => if q = k then v else m q

@[simp] theorem updMap_same {α : Type _} (m : Option String → Option α)
    (k : Option String) (v : Option α) : updMap m k v k = v := by
  simp [updMap]

theorem updMap_other {α : Type _} (m : Option String → Option α)
    (k q : Option String) (v : Option α) (h : q ≠ k) : updMap m k v q = m q := by
  simp [updMap, h]

/-- One device's slice of coordinator.py lines 124-161, acting on the
shared dictionaries: read the device's scalars (`dict.get`, with default
0 for the counter), run the step, write the results back.  (The Python
loop writes the counter unconditionally, the baseline only on set/delete
and the cable state only on change; after the step the stored values are
exactly the step's outputs, so the pointwise writes below are the same
dictionary contents.) -/
def reconcileDevice (G : GState) (uid : Option String) (cable : String)
    (energy : Option ℚ) : GState × Bool :=
  let st : DevState := ⟨G.baselines uid, G.prevCables uid, (G.counts uid).getD 0⟩
  let r := deviceStep st cable energy
  (⟨updMap G.baselines uid r.1.baseline,
    updMap G.prevCables uid r.1.prevCable,
    updMap G.counts uid (some r.1.count)⟩, r.2)

/-- The per-cycle reconciliation loop over the fetched devices (each
with its observed cable state and energy reading), accumulating the
cycle-wide `baselines_changed` flag.  `_save_baselines` runs at the end
of the cycle iff the returned flag is `true` (lines 174-176). -/
def reconcileCycle (G : GState) :
    List (Option String × String × Option ℚ) → GState × Bool
  | [] => (G, false)
  | d :: rest =>
    let r1 := reconcileDevice G d.1 d.2.1 d.2.2
    let r2 := reconcileCycle r1.1 rest
    (r2.1, r1.2 || r2.2)

/-- The stored previous cable state after a step is the observed one. -/
theorem deviceStep_prevCable (st : DevState) (cable : String)
    (energy : Option ℚ) : (deviceStep st cable energy).1.prevCable = some cable :=
  rfl

/-- A step that reports a change really changed the device's baseline or
its stored cable state. -/
theorem deviceStep_changed (st : DevState) (cable : String) (energy : Option ℚ)
    (h : (deviceStep st cable energy).2 = true) :
    (deviceStep st cable energy).1.baseline ≠ st.baseline ∨
      st.prevCable ≠ some cable := by
  by_cases hcab : st.prevCable = some cable
  · left
    have hch : (deviceStep st cable energy).2 =
        ((cable == "notCharging" && decide (2 ≤ st.count + 1) && st.baseline.isSome) ||
          (isPluggedIn cable &&
            (if (cable == "notCharging" && decide (2 ≤ st.count + 1) && st.baseline.isSome : Bool)
              then (none : Option ℚ) else st.baseline).isNone && energy.isSome) ||
          !(st.prevCable == some cable)) := rfl
    rw [hch] at h
    have hcabb : (st.prevCable == some cable) = true := by simp [hcab]
    rw [hcabb] at h
    simp only [Bool.not_true, Bool.or_false, Bool.or_eq_true, Bool.and_eq_true] at h
    rcases h with ⟨⟨hnc, hcnt⟩, hsome⟩ | ⟨⟨hp, hnone⟩, hes⟩
    · -- deletion: the baseline was recorded and becomes `none`
      have hc : cable = "notCharging" := by simpa using hnc
      subst hc
      rw [deviceStep_baseline_notCharging]
      have h1 : 1 ≤ st.count := by
        have := of_decide_eq_true hcnt
        omega
      rw [if_pos ⟨h1, hsome⟩]
      cases hbl : st.baseline with
      | none => rw [hbl] at hsome; simp at hsome
      | some b => simp
    · -- recording: the baseline was absent and becomes the energy reading
      have hnotnc : (cable == "notCharging") = false := by
        simpa using isPluggedIn_ne_notCharging hp
      rw [hnotnc] at hnone
      simp [Option.isNone_iff_eq_none] at hnone
      rw [deviceStep_baseline_plugged _ _ _ hp, if_pos ⟨hnone, hes⟩, hnone]
      cases he : energy with
      | none => rw [he] at hes; simp at hes
      | some e => simp
  · exact Or.inr hcab

/-- A reconciliation step that reports a change really changed the
dictionaries at its own device key. -/
theorem reconcileDevice_changed (G : GState) (uid : Option String)
    (cable : String) (energy : Option ℚ)
    (h : (reconcileDevice G uid cable energy).2 = true) :
    (reconcileDevice G uid cable energy).1.baselines uid ≠ G.baselines uid ∨
      (reconcileDevice G uid cable energy).1.prevCables uid ≠ G.prevCables uid := by
  rcases deviceStep_changed ⟨G.baselines uid, G.prevCables uid, (G.counts uid).getD 0⟩
      cable energy h with hb | hp
  · left
    simpa [reconcileDevice] using hb
  · right
    rw [show (reconcileDevice G uid cable energy).1.prevCables uid = some cable by
      simp [reconcileDevice, deviceStep_prevCable]]
    exact fun hc => hp hc.symm

/-- A reconciliation step leaves every other device key untouched. -/
theorem reconcileDevice_frame (G : GState) (uid : Option String)
    (cable : String) (energy : Option ℚ) (q : Option String) (h : q ≠ uid) :
    (reconcileDevice G uid cable energy).1.baselines q = G.baselines q ∧
      (reconcileDevice G uid cable energy).1.prevCables q = G.prevCables q ∧
      (reconcileDevice G uid cable energy).1.counts q = G.counts q := by
  refine ⟨?_, ?_, ?_⟩ <;> simp [reconcileDevice, updMap_other _ _ _ _ h]

/-- The cycle loop leaves keys outside the fetched device list untouched. -/
theorem reconcileCycle_frame (l : List (Option String × String × Option ℚ))
    (G : GState) (q : Option String) (h : q ∉ l.map Prod.fst) :
    (reconcileCycle G l).1.baselines q = G.baselines q ∧
      (reconcileCycle G l).1.prevCables q = G.prevCables q ∧
      (reconcileCycle G l).1.counts q = G.counts q := by
  induction l generalizing G with
  | nil => exact ⟨rfl, rfl, rfl⟩
  | cons d rest ih =>
    simp only [List.map_cons, List.mem_cons] at h
    push_neg at h
    obtain ⟨hbase, hprev, hcnt⟩ :=
      reconcileDevice_frame G d.1 d.2.1 d.2.2 q h.1
    obtain ⟨ib, ip, ic⟩ := ih _ h.2
    exact ⟨by rw [reconcileCycle] at *; rw [ib, hbase],
      by rw [reconcileCycle] at *; rw [ip, hprev],
      by rw [reconcileCycle] at *; rw [ic, hcnt]⟩

/-- Auxiliary form of the write-minimization property: when the device
keys are pairwise distinct and the loop raises the `baselines_changed`
flag, some fetched device's dictionary entry really differs. -/
theorem reconcileCycle_changed_aux (l : List (Option String × String × Option ℚ))
    (G : GState) (hnd : (l.map Prod.fst).Nodup)
    (h : (reconcileCycle G l).2 = true) :
    ∃ k ∈ l.map Prod.fst,
      (reconcileCycle G l).1.baselines k ≠ G.baselines k ∨
      (reconcileCycle G l).1.prevCables k ≠ G.prevCables k := by
  induction l generalizing G with
  | nil => simp [reconcileCycle] at h
  | cons d rest ih =>
    simp only [List.map_cons, List.nodup_cons] at hnd
    rw [reconcileCycle] at h
    simp only [Bool.or_eq_true] at h
    rcases h with h1 | h2
    · refine ⟨d.1, by simp, ?_⟩
      obtain ⟨fb, fp, -⟩ := reconcileCycle_frame rest
        (reconcileDevice G d.1 d.2.1 d.2.2).1 d.1 hnd.1
      rcases reconcileDevice_changed G d.1 d.2.1 d.2.2 h1 with hb | hp
      · left
        rw [show (reconcileCycle G (d :: rest)).1 =
          (reconcileCycle (reconcileDevice G d.1 d.2.1 d.2.2).1 rest).1 from rfl, fb]
        exact hb
      · right
        rw [show (reconcileCycle G (d :: rest)).1 =
          (reconcileCycle (reconcileDevice G d.1 d.2.1 d.2.2).1 rest).1 from rfl, fp]
        exact hp
    · obtain ⟨k, hk, hdiff⟩ := ih (reconcileDevice G d.1 d.2.1 d.2.2).1 hnd.2 h2
      have hkne : k ≠ d.1 := fun hkd => hnd.1 (hkd ▸ hk)
      obtain ⟨db, dp, -⟩ := reconcileDevice_frame G d.1 d.2.1 d.2.2 k hkne
      refine ⟨k, by simp [hk], ?_⟩
      rw [show (reconcileCycle G (d :: rest)).1 =
        (reconcileCycle (reconcileDevice G d.1 d.2.1 d.2.2).1 rest).1 from rfl]
      rcases hdiff with hb | hp
      · exact Or.inl (db ▸ hb)
      · exact Or.inr (dp ▸ hp)

/-- C7: for every poll cycle over devices with pairwise-distinct UIDs,
the persisted blob is written (i.e. the cycle-wide `baselines_changed`
flag that gates `_save_baselines` is raised) only if the cycle really
changed the stored baseline, cable-state or counter contents at some
device key; a cycle that changes none of them performs no store write. -/
theorem save_only_when_contents_changed
    (l : List (Option String × String × Option ℚ)) (G : GState)
    (hnd : (l.map Prod.fst).Nodup) (h : (reconcileCycle G l).2 = true) :
    ∃ k, (reconcileCycle G l).1.baselines k ≠ G.baselines k ∨
      (reconcileCycle G l).1.prevCables k ≠ G.prevCables k ∨
      (reconcileCycle G l).1.counts k ≠ G.counts k := by
  obtain ⟨k, -, hdiff⟩ := reconcileCycle_changed_aux l G hnd h
  exact ⟨k, hdiff.imp id Or.inl⟩

/-- Witness for `save_only_when_contents_changed`: a single device whose
first poll reports `"charging"` raises the flag (its stored cable state
changes from absent to `"charging"`), and indeed some entry differs. -/
theorem save_only_when_contents_changed_witness :
    ∃ k, (reconcileCycle emptyG [(some "dev1", "charging", some 5)]).1.baselines k ≠
        emptyG.baselines k ∨
      (reconcileCycle emptyG [(some "dev1", "charging", some 5)]).1.prevCables k ≠
        emptyG.prevCables k ∨
      (reconcileCycle emptyG [(some "dev1", "charging", some 5)]).1.counts k ≠
        emptyG.counts k :=
  save_only_when_contents_changed [(some "dev1", "charging", some 5)] emptyG
    (by simp) rfl

/-! ## API client (api.py)

Each read endpoint is embedded as a function of the HTTP status code and
the parsed JSON body the vendor would return; the function maps them to
the value or exception the Python method produces.  Exceptions:
`IndraAuthError` (a subclass of `IndraApiError`) and `IndraApiError`
from api.py, plus `AttributeError` for the coordinator's call to the
missing `get_schedules` method; the coordinator's `except` clauses
handle the three cases in that order. -/

/-- The exceptions a cycle can raise: `IndraAuthError`,
`IndraApiError` (carrying the HTTP status it reports), or any other
`Exception` (here: the `AttributeError` from the missing method). -/
inductive PyExc where
  | authError
  | apiError (status : ℕ)
  | attributeError
deriving DecidableEq, Repr

/-- One entry of the vendor's device list: `deviceUID` and
`location.locationUID` as read with `.get` (absent keys give `None`),
plus the rest of the JSON object, opaque to the coordinator. -/
structure Device where
  deviceUID : Option String
  locationUID : Option String
  info : String
deriving DecidableEq, Repr

/-- A device-properties response: the value of
`props.get("cableState", {}).get("settingValue")` if present, plus the
rest of the mapping, opaque to the coordinator. -/
structure Props where
  cableState : Option String
  extra : String
deriving DecidableEq, Repr

/-- The `{}` returned by `get_device_properties` on a non-401 non-200
response: no `cableState` key. -/
def emptyProps : Props := ⟨none, ""⟩

/-- Installation-telemetry payload, opaque to the coordinator. -/
abbrev Telemetry := List (String × String)

/-- Solar-status payload, opaque to the coordinator. -/
abbrev Solar := List (String × String)

/-- A device-telemetry response: the value of
`.get("data", {}).get("activeEnergyToEv")`, plus the rest, opaque. -/
structure DeviceTelemetry where
  activeEnergyToEv : Option ℚ
  extra : String
deriving DecidableEq, Repr

/-- The `{}` returned by `get_device_telemetry` on a non-200 response:
no energy reading. -/
def emptyDeviceTelemetry : DeviceTelemetry := ⟨none, ""⟩

/-- One transaction from `/api/reports/transactions/latest`: its
`deviceUId` as read with `.get`, plus the rest, opaque. -/
structure Txn where
  deviceUId : Option String
  extra : String
deriving DecidableEq, Repr

/-- A charge schedule (the shape the coordinator's filter expects). -/
structure Sched where
  deviceUId : Option String
  extra : String
deriving DecidableEq, Repr

/-- `IndraApi.get_devices` (api.py lines 79-86): 200 → parsed body,
401 → `IndraAuthError`, anything else → `IndraApiError` carrying the
status. -/
def get_devices (status : ℕ) (body : List Device) :
    Except PyExc (List Device) :=
  if status = 200 then .ok body
  else if status = 401 then .error .authError
  else .error (.apiError status)

/-- `IndraApi.get_device_properties` (api.py lines 88-95): 200 → parsed
body, 401 → `IndraAuthError`, anything else → `{}` (no raise). -/
def get_device_properties (status : ℕ) (body : Props) : Except PyExc Props :=
  if status = 200 then .ok body
  else if status = 401 then .error .authError
  else .ok emptyProps

/-- `IndraApi.get_telemetry` (api.py lines 97-104): 200 → parsed body,
any other status (401 included) → `{}` (no raise). -/
def get_telemetry (status : ℕ) (body : Telemetry) : Except PyExc Telemetry :=
  if status = 200 then .ok body else .ok []

/-- `IndraApi.get_solar_status` (api.py lines 126-131): 200 → parsed
body, any other status (401 included) → `{}` (no raise). -/
def get_solar_status (status : ℕ) (body : Solar) : Except PyExc Solar :=
  if status = 200 then .ok body else .ok []

/-- `IndraApi.get_device_telemetry` (api.py lines 145-152): 200 →
parsed body, any other status (401 included) → `{}` (no raise). -/
def get_device_telemetry (status : ℕ) (body : DeviceTelemetry) :
    Except PyExc DeviceTelemetry :=
  if status = 200 then .ok body else .ok emptyDeviceTelemetry

/-- `IndraApi.get_current_transaction` (api.py lines 154-163): on 200,
the first transaction whose `deviceUId` equals the requested device UID;
`None` when there is no match or on any other status (no raise). -/
def get_current_transaction (device_uid : Option String) (status : ℕ)
    (body : List Txn) : Except PyExc (Option Txn) :=
  if status = 200 then .ok (body.find? (fun t => t.deviceUId == device_uid))
  else .ok none

/-- `IndraApi.refresh_token` (api.py lines 68-77): succeeds iff the
refresh endpoint answers 200 with a token longer than 50 characters. -/
def refresh_token (status : ℕ) (token : String) : Bool :=
  status == 200 && decide (50 < token.length)

/-- The coordinator's call `self.api.get_schedules` (coordinator.py
lines 116-118): `IndraApi` defines no attribute of this name anywhere in
the repository, so the attribute lookup raises `AttributeError`, caught
by the coordinator's generic `except Exception` clause. -/
def get_schedules : Except PyExc (List Sched) := .error .attributeError

/-! ## Full refresh cycle (`_async_update_data`, coordinator.py 71-193)

The vendor's behaviour during one cycle is an environment of HTTP
responses (status and parsed body per endpoint and key); a run of the
coordinator is a function of one environment per attempt plus the
outcome of each `refresh_token` call.  The recursive retry after a
successful token refresh is modelled with explicit fuel. -/

/-- `if location_uid:` — Python truthiness of the optional string. -/
def pyTruthy (s : Option String) : Bool :=
  match s with
  | none => false
  | some s => !(s == "")

/-- The per-device snapshot entry built at coordinator.py lines 163-172. -/
structure DeviceEntry where
  device_info : Device
  properties : Props
  telemetry : Telemetry
  device_telemetry : DeviceTelemetry
  current_transaction : Option Txn
  solar : Solar
  session_energy_baseline : Option ℚ
  schedules : List Sched
deriving DecidableEq, Repr

/-- The `data["devices"]` mapping, as an insertion-ordered dictionary. -/
abbrev Snapshot := List (Option String × DeviceEntry)

/-- Python dictionary assignment `m[k] = v`: overwrite in place if the
key exists, else append. -/
def dictSet (m : Snapshot) (k : Option String) (v : DeviceEntry) : Snapshot :=
  if m.any (fun p => p.1 == k) then
    m.map (fun p => if p.1 == k then (k, v) else p)
  else m ++ [(k, v)]

/-- The vendor's responses during one refresh cycle: HTTP status and
parsed body for each endpoint, keyed by device UID (installation
telemetry by location UID). -/
structure CycleEnv where
  devicesStatus : ℕ
  devicesBody : List Device
  propsStatus : Option String → ℕ
  propsBody : Option String → Props
  telemStatus : Option String → ℕ
  telemBody : Option String → Telemetry
  solarStatus : Option String → ℕ
  solarBody : Option String → Solar
  devTelStatus : Option String → ℕ
  devTelBody : Option String → DeviceTelemetry
  txnStatus : Option String → ℕ
  txnBody : Option String → List Txn

/-- The loop body for one device (coordinator.py lines 84-172): fetch
properties, installation telemetry (only when a truthy location UID is
present), solar status, device telemetry, the current transaction and
the schedule list (whose attribute lookup raises), then reconcile the
session-energy state and build the snapshot entry.  All fallible calls
precede the dictionary mutations, so an exception leaves the
coordinator state untouched. -/
def processDevice (env : CycleEnv) (G : GState) (device : Device) :
    Except PyExc (GState × Bool × (Option String × DeviceEntry)) := do
  let device_uid := device.deviceUID
  let location_uid := device.locationUID
  let props ← get_device_properties (env.propsStatus device_uid)
    (env.propsBody device_uid)
  let telemetry ← if pyTruthy location_uid then
      get_telemetry (env.telemStatus location_uid) (env.telemBody location_uid)
    else pure []
  let solar ← get_solar_status (env.solarStatus device_uid)
    (env.solarBody device_uid)
  let device_telemetry ← get_device_telemetry (env.devTelStatus device_uid)
    (env.devTelBody device_uid)
  let current_txn ← get_current_transaction device_uid
    (env.txnStatus device_uid) (env.txnBody device_uid)
  let all_schedules ← get_schedules
  let device_schedules := all_schedules.filter (fun s => s.deviceUId == device_uid)
  let cable_state := props.cableState.getD ""
  let current_energy_wh := device_telemetry.activeEnergyToEv
  let r := reconcileDevice G device_uid cable_state current_energy_wh
  pure (r.1, r.2,
    (device_uid,
      { device_info := device
        properties := props
        telemetry := telemetry
        device_telemetry := device_telemetry
        current_transaction := current_txn
        solar := solar
        session_energy_baseline := r.1.baselines device_uid
        schedules := device_schedules }))

/-- The per-cycle device loop, threading the coordinator state, the
cycle-wide `baselines_changed` flag and the snapshot under construction;
an exception aborts the loop but keeps the mutations already applied. -/
def processDevices (env : CycleEnv) :
    List Device → GState → Bool → Snapshot →
      GState × Bool × Except PyExc Snapshot
  | [], G, changed, acc => (G, changed, .ok acc)
  | d :: rest, G, changed, acc =>
    match processDevice env G d with
    | .error e => (G, changed, .error e)
    | .ok (G', ch, entry) =>
      processDevices env rest G' (changed || ch) (dictSet acc entry.1 entry.2)

/-- One attempt at the `try:` block of `_async_update_data`
(coordinator.py lines 76-178): fetch the device list, loop over the
devices, and report the final coordinator state, whether
`_save_baselines` would run (the `baselines_changed` flag, checked at
lines 175-176 only on the success path) and the produced snapshot or
the exception. -/
def runCycle (env : CycleEnv) (G : GState) :
    GState × Bool × Except PyExc Snapshot :=
  match get_devices env.devicesStatus env.devicesBody with
  | .error e => (G, false, .error e)
  | .ok devices => processDevices env devices G false []

/-- What `_async_update_data` resolves to: a snapshot (with the flag
telling whether the persisted blob was rewritten), or one of the three
`UpdateFailed` messages (authentication / API error with status /
unexpected), or exhaustion of the modelling fuel for the retry
recursion. -/
inductive UpdateOutcome where
  | snapshot (snap : Snapshot) (wrote : Bool)
  | failedAuth
  | failedApi (status : ℕ)
  | failedUnexpected
  | outOfFuel
deriving DecidableEq, Repr

/-- `_async_update_data` (coordinator.py lines 71-193) from attempt `k`:
run one cycle; on `IndraAuthError` call `refresh_token` and either fail
with the auth message or recurse into a fresh attempt; on
`IndraApiError` or any other exception fail with the corresponding
message.  Returns the outcome, the final coordinator state and the
number of `refresh_token` calls made. -/
def updateData (fuel : ℕ) (envs : ℕ → CycleEnv) (refreshOk : ℕ → Bool)
    (k : ℕ) (G : GState) : UpdateOutcome × GState × ℕ :=
  match fuel with
  | 0 => (.outOfFuel, G, 0)
  | fuel' + 1 =>
    let r := runCycle (envs k) G
    match r.2.2 with
    | .ok snap => (.snapshot snap r.2.1, r.1, 0)
    | .error .authError =>
      if refreshOk k then
        let rec2 := updateData fuel' envs refreshOk (k + 1) r.1
        (rec2.1, rec2.2.1, rec2.2.2 + 1)
      else (.failedAuth, r.1, 1)
    | .error (.apiError s) => (.failedApi s, r.1, 0)
    | .error .attributeError => (.failedUnexpected, r.1, 0)

/-! ## Claims about the API client's status handling (C6) -/

/-- C6 fails as stated: a 401 on installation telemetry (and likewise on
solar status and device telemetry) does not raise the auth-specific
failure but yields the typed empty result, and a non-401 non-2xx on
device properties does not raise a generic failure either. -/
theorem api_read_status_counterexample :
    get_telemetry 401 [("gridPower", "2000")] = .ok [] ∧
    get_telemetry 401 [("gridPower", "2000")] ≠ .error .authError ∧
    get_solar_status 401 [("solarEnabled", "true")] = .ok [] ∧
    get_device_telemetry 401 ⟨some 5, "payload"⟩ = .ok emptyDeviceTelemetry ∧
    get_device_properties 500 ⟨some "charging", "payload"⟩ = .ok emptyProps ∧
    get_device_properties 500 ⟨some "charging", "payload"⟩ ≠ .error (.apiError 500) := by
  refine ⟨rfl, ?_, rfl, rfl, rfl, ?_⟩ <;> simp [get_telemetry, get_device_properties]

/-- C6 amended: all five read operations return the parsed body on 200;
the device-list read raises the auth-specific failure on 401 and a
generic failure carrying the status on any other non-200; the
device-properties read raises the auth-specific failure on 401 but
yields the typed empty mapping on any other non-200; installation
telemetry, solar status and device telemetry never raise and yield the
typed empty result on every non-200 status, 401 included. -/
theorem api_read_status_mapping (s : ℕ) (pb : Props) (tb : Telemetry)
    (sb : Solar) (db : DeviceTelemetry) (dv : List Device) :
    (get_device_properties 200 pb = .ok pb ∧ get_telemetry 200 tb = .ok tb ∧
      get_solar_status 200 sb = .ok sb ∧ get_device_telemetry 200 db = .ok db ∧
      get_devices 200 dv = .ok dv) ∧
    (get_device_properties 401 pb = .error .authError ∧
      get_devices 401 dv = .error .authError) ∧
    (get_telemetry 401 tb = .ok [] ∧ get_solar_status 401 sb = .ok [] ∧
      get_device_telemetry 401 db = .ok emptyDeviceTelemetry) ∧
    (s ≠ 200 → s ≠ 401 →
      get_device_properties s pb = .ok emptyProps ∧
      get_devices s dv = .error (.apiError s)) ∧
    (s ≠ 200 →
      get_telemetry s tb = .ok [] ∧ get_solar_status s sb = .ok [] ∧
      get_device_telemetry s db = .ok emptyDeviceTelemetry) := by
  refine ⟨⟨rfl, rfl, rfl, rfl, rfl⟩, ⟨rfl, rfl⟩, ⟨rfl, rfl, rfl⟩, ?_, ?_⟩
  · intro h200 h401
    exact ⟨by simp [get_device_properties, h200, h401],
      by simp [get_devices, h200, h401]⟩
  · intro h200
    exact ⟨by simp [get_telemetry, h200], by simp [get_solar_status, h200],
      by simp [get_device_telemetry, h200]⟩

/-- Witness for `api_read_status_mapping` at status 500. -/
theorem api_read_status_mapping_witness :
    get_device_properties 500 ⟨some "charging", ""⟩ = .ok emptyProps ∧
    get_telemetry 500 [("gridPower", "2000")] = .ok [] :=
  ⟨((api_read_status_mapping 500 ⟨some "charging", ""⟩ [("gridPower", "2000")]
      [] emptyDeviceTelemetry []).2.2.2.1 (by decide) (by decide)).1,
   ((api_read_status_mapping 500 ⟨some "charging", ""⟩ [("gridPower", "2000")]
      [] emptyDeviceTelemetry []).2.2.2.2 (by decide)).1⟩

/-! ## Claim about the full refresh cycle (C1) -/

/-- The device loop body always raises: even when every HTTP call
succeeds, the `self.api.get_schedules` attribute lookup fails before the
snapshot entry is built. -/
theorem processDevice_always_fails (env : CycleEnv) (G : GState) (d : Device)
    (hp : env.propsStatus d.deviceUID = 200) :
    processDevice env G d = .error .attributeError := by
  simp only [processDevice, get_device_properties, hp, if_pos, get_schedules]
  by_cases ht : pyTruthy d.locationUID = true <;>
    simp [ht, get_telemetry, get_solar_status, get_device_telemetry,
      get_current_transaction, Except.bind] <;>
    split_ifs <;> rfl

/-- Any refresh cycle that reaches its first device fails with the
unexpected-error outcome, whatever the vendor answers. -/
theorem runCycle_fails_with_devices (env : CycleEnv) (G : GState)
    (d : Device) (rest : List Device) (hdev : env.devicesStatus = 200)
    (hbody : env.devicesBody = d :: rest)
    (hp : env.propsStatus d.deviceUID = 200) :
    runCycle env G = (G, false, .error .attributeError) := by
  simp [runCycle, get_devices, hdev, hbody, processDevices,
    processDevice_always_fails env G d hp]

/-- An environment in which every vendor HTTP call succeeds (status 200)
for a single device `dev1`. -/
def benignEnv : CycleEnv where
  devicesStatus := 200
  devicesBody := [⟨some "dev1", some "loc1", "Indra Smart PRO"⟩]
  propsStatus := fun _ => 200
  propsBody := fun _ => ⟨some "charging", "props"⟩
  telemStatus := fun _ => 200
  telemBody := fun _ => [("gridPower", "2000")]
  solarStatus := fun _ => 200
  solarBody := fun _ => [("solarEnabled", "false")]
  devTelStatus := fun _ => 200
  devTelBody := fun _ => ⟨some 5000, "telemetry"⟩
  txnStatus := fun _ => 200
  txnBody := fun _ => []

/-- C1 fails on the code: with one device and every vendor API call
succeeding, `refresh()` does not return a snapshot at all — the call to
the non-existent `IndraApi.get_schedules` raises `AttributeError` and
the whole cycle fails with the unexpected-error outcome. -/
theorem refresh_fails_on_missing_schedules :
    updateData 5 (fun _ => benignEnv) (fun _ => true) 0 emptyG =
      (.failedUnexpected, emptyG, 0) := rfl

/-! ## Claim about authentication retry (C5) -/

/-- C5 amended: on an auth failure in a cycle the coordinator makes one
`refresh_token` attempt; if it fails the refresh fails with the
auth-failure outcome after that single attempt; if it succeeds the whole
cycle re-runs from the top, and when that re-run completes without
error its snapshot is returned with no auth failure surfaced (each
further auth-failing re-run would trigger a further refresh attempt). -/
theorem auth_retry_behavior (envs : ℕ → CycleEnv) (refreshOk : ℕ → Bool)
    (G : GState) (fuel : ℕ) :
    ((runCycle (envs 0) G).2.2 = .error .authError → refreshOk 0 = false →
      updateData (fuel + 1) envs refreshOk 0 G =
        (.failedAuth, (runCycle (envs 0) G).1, 1)) ∧
    (∀ snap G₁ ch, (runCycle (envs 0) G).2.2 = .error .authError →
      refreshOk 0 = true →
      runCycle (envs 1) (runCycle (envs 0) G).1 = (G₁, ch, .ok snap) →
      updateData (fuel + 2) envs refreshOk 0 G = (.snapshot snap ch, G₁, 1)) := by
  constructor
  · intro hauth href
    rw [updateData, hauth, href]
    rfl
  · intro snap G₁ ch hauth href hcycle
    have h1 : updateData (fuel + 1) envs refreshOk 1 ((runCycle (envs 0) G).1) =
        (.snapshot snap ch, G₁, 0) := by
      rw [updateData, hcycle]
    rw [show fuel + 2 = (fuel + 1) + 1 from rfl, updateData, hauth, href]
    simp [h1]

/-- An environment whose device-list call answers 401. -/
def authFailEnv : CycleEnv where
  devicesStatus := 401
  devicesBody := []
  propsStatus := fun _ => 200
  propsBody := fun _ => emptyProps
  telemStatus := fun _ => 200
  telemBody := fun _ => []
  solarStatus := fun _ => 200
  solarBody := fun _ => []
  devTelStatus := fun _ => 200
  devTelBody := fun _ => emptyDeviceTelemetry
  txnStatus := fun _ => 200
  txnBody := fun _ => []

/-- An environment whose device list is empty and succeeds. -/
def emptyOkEnv : CycleEnv where
  devicesStatus := 200
  devicesBody := []
  propsStatus := fun _ => 200
  propsBody := fun _ => emptyProps
  telemStatus := fun _ => 200
  telemBody := fun _ => []
  solarStatus := fun _ => 200
  solarBody := fun _ => []
  devTelStatus := fun _ => 200
  devTelBody := fun _ => emptyDeviceTelemetry
  txnStatus := fun _ => 200
  txnBody := fun _ => []

/-- Witness for `auth_retry_behavior`: a 401 device list with a failing
refresh gives the auth-failure outcome after one refresh attempt; a 401
first cycle with a successful refresh followed by a clean (empty) cycle
returns that cycle's snapshot with one refresh attempt. -/
theorem auth_retry_behavior_witness :
    updateData 1 (fun _ => authFailEnv) (fun _ => false) 0 emptyG =
      (.failedAuth, emptyG, 1) ∧
    updateData 2 (fun k => if k = 0 then authFailEnv else emptyOkEnv)
      (fun _ => true) 0 emptyG = (.snapshot [] false, emptyG, 1) :=
  ⟨(auth_retry_behavior (fun _ => authFailEnv) (fun _ => false) emptyG 0).1
      rfl rfl,
   (auth_retry_behavior (fun k => if k = 0 then authFailEnv else emptyOkEnv)
      (fun _ => true) emptyG 0).2 [] emptyG false rfl rfl rfl⟩

/-- C5 fails as stated: when the re-run cycle hits another auth failure
the coordinator calls `refresh_token` again, so two refresh attempts
happen, not exactly one, and a successful first refresh still ends in
the auth-failure outcome. -/
theorem c5_counterexample :
    updateData 5 (fun _ => authFailEnv) (fun k => k == 0) 0 emptyG =
      (.failedAuth, emptyG, 2) := rfl

/-! ## Persisted-state loading (`_load_baselines`, coordinator.py 46-56)

`Store.async_load` hands back whatever JSON value was stored (or `None`
when nothing was).  The loader keeps the `__init__` empty dictionaries
unless the blob is a truthy `dict`, in which case it assigns
`stored.get("baselines", {})` (and the two siblings) verbatim, with no
shape validation of the values. -/

/-- A stored JSON value as Python sees it. -/
inductive PyVal where
  | pynone
  | pyint (n : ℤ)
  | pyfloat (q : ℚ)
  | pystr (s : String)
  | pybool (b : Bool)
  | pylist (xs : List PyVal)
  | pydict (entries : List (String × PyVal))

/-- Python truthiness of a stored value (`if stored and ...`). -/
def pyValTruthy : PyVal → Bool
  | .pynone => false
  | .pyint n => !(n == 0)
  | .pyfloat q => !(q == 0)
  | .pystr s => !(s == "")
  | .pybool b => b
  | .pylist xs => !xs.isEmpty
  | .pydict entries => !entries.isEmpty

/-- `isinstance(stored, dict)`. -/
def isPyDict : PyVal → Bool
  | .pydict _ => true
  | _ => false

/-- `d.get(key, default)` on a Python dict (keys are unique, so the
first match is the value). -/
def pyDictGetD (entries : List (String × PyVal)) (key : String)
    (dflt : PyVal) : PyVal :=
  match entries.find? (fun p => p.1 == key) with
  | some p => p.2
  | none => dflt

/-- The three coordinator attributes `_load_baselines` assigns.  Their
values are whatever the blob held — Python does not check that they are
dictionaries. -/
structure LoadedMaps where
  baselines : PyVal
  cable_states : PyVal
  unplug_count : PyVal

/-- The `__init__` values: three empty dicts. -/
def initLoaded : LoadedMaps := ⟨.pydict [], .pydict [], .pydict []⟩

/-- `_load_baselines` (coordinator.py lines 46-56): `stored` is the
blob `async_load` returned (`none` when nothing was ever stored).  Only
a truthy `dict` is consumed; its three entries are taken verbatim with
empty-dict defaults.  Anything else leaves the initial empty state. -/
def loadBaselines (stored : Option PyVal) : LoadedMaps :=
  match stored with
  | some (PyVal.pydict entries) =>
    if pyValTruthy (PyVal.pydict entries) then
      ⟨pyDictGetD entries "baselines" (.pydict []),
       pyDictGetD entries "cable_states" (.pydict []),
       pyDictGetD entries "unplug_count" (.pydict [])⟩
    else initLoaded
  | _ => initLoaded

/-- C8 fails as stated: a stored blob of the wrong shape — a dict whose
`"baselines"` entry is the integer 5 — is not replaced by
empty-initialized state; the loader assigns the integer verbatim. -/
theorem load_counterexample :
    (loadBaselines (some (.pydict [("baselines", .pyint 5)]))).baselines =
      .pyint 5 ∧
    (loadBaselines (some (.pydict [("baselines", .pyint 5)]))).baselines ≠
      (PyVal.pydict []) := by
  refine ⟨rfl, ?_⟩
  intro h
  rw [show (loadBaselines (some (.pydict [("baselines", .pyint 5)]))).baselines =
    .pyint 5 from rfl] at h
  exact PyVal.noConfusion h

/-- C8 amended: `load()` returns the empty-initialized state — all
three mappings empty — without raising, whenever nothing has been
stored or the stored blob is anything other than a non-empty dict (so
in particular on the first run with an empty or missing store); the
entries of a non-empty dict blob are taken as-is, with no validation of
their shapes. -/
theorem load_empty_unless_nonempty_dict (stored : Option PyVal)
    (h : ∀ entries, entries ≠ [] → stored ≠ some (.pydict entries)) :
    loadBaselines stored = initLoaded := by
  match stored with
  | none => rfl
  | some (PyVal.pydict entries) =>
    match entries with
    | [] => rfl
    | e :: rest => exact absurd rfl (h (e :: rest) (by simp))
  | some .pynone => rfl
  | some (.pyint n) => rfl
  | some (.pyfloat q) => rfl
  | some (.pystr s) => rfl
  | some (.pybool b) => rfl
  | some (.pylist xs) => rfl

/-- Witness for `load_empty_unless_nonempty_dict`: the first-run case of
a missing store yields the empty-initialized state. -/
theorem load_empty_unless_nonempty_dict_witness :
    loadBaselines none = initLoaded :=
  load_empty_unless_nonempty_dict none (fun entries _ h => by
    exact Option.noConfusion h)

end Indra
